import Mathlib

/-!
Shallow embedding of the data-provider layer of the nof1-tracker repository:
the IDataProvider interface (src/src/services/data-provider.ts), the
CustomDataProviderExample class (src/services/custom-data-provider.example.ts)
and the ApiClient adapter (src/services/api-client.ts).

Methods of a TypeScript class that may mutate the receiver are embedded as
state-passing functions: a method taking arguments and returning a value
becomes a Lean function from the receiver state and the arguments to the
pair of the returned value and the receiver state after the call.

JavaScript numbers carried by positions are embedded as rationals (no
arithmetic is performed on them by the code under study); timestamps and
markers, which the code only stores, compares and subtracts, as integers.
-/

namespace Nof1

/-- Exit plan carried by a position, as in the fixtures of the test suite:
profit target price, stop-loss price and an invalidation note. -/
structure ExitPlan where
  profit_target : Rat
  stop_loss : Rat
  invalidation_condition : String
deriving DecidableEq, Repr

/-- Per-symbol position as reported by the signal source. Field set follows
the fixtures of the CustomDataProviderExample test suite, which spell out the
AgentAccount and Position shapes of src/types/api.ts. -/
structure Position where
  symbol : String
  entry_price : Rat
  quantity : Rat
  leverage : Rat
  current_price : Rat
  unrealized_pnl : Rat
  confidence : Rat
  entry_oid : Int
  tp_oid : Int
  sl_oid : Int
  margin : Rat
  exit_plan : ExitPlan
deriving DecidableEq, Repr

/-- Agent account: identifier, model identifier, hourly marker and the
per-symbol position map (a string-keyed map, embedded as an association
list in key insertion order). -/
structure AgentAccount where
  id : String
  model_id : String
  since_inception_hourly_marker : Int
  positions : List (String × Position)
deriving DecidableEq, Repr

/-- Response shape of getAccountTotals: the list of agent accounts. -/
structure DataProviderResponse where
  accountTotals : List AgentAccount
deriving DecidableEq, Repr

/-- Value stored in the provider cache. The class declares the map values as
untyped; the only field any method reads is the timestamp, which the code
guards with a fallback to 0 when it is missing, so it is embedded as
optional. The payload itself is opaque to every method. -/
structure CacheEntry where
  data : String
  timestamp : Option Int
deriving DecidableEq, Repr

/-- One row of the cache statistics: the cached URL and its age. -/
structure CacheStatsEntry where
  url : String
  age : Int
deriving DecidableEq, Repr

/-- Return shape of getCacheStats. -/
structure CacheStats where
  size : Nat
  entries : List CacheStatsEntry
deriving DecidableEq, Repr

/-- State of a CustomDataProviderExample object: the constructor arguments,
the private cache (a JavaScript Map, embedded as an association list in
insertion order), and the dynamically dispatched body of getAccountTotals.
The last field embeds virtual dispatch: getAvailableAgents and getAgentData
call this.getAccountTotals, which a subclass may override (the repository's
test suite does exactly that to inject fixture accounts); for an instance
constructed as the example class itself the body is exampleAccountTotals
below. The bodies in the repository are pure in the receiver, so the field
is a function of the marker alone. -/
structure CustomDataProviderExample where
  apiEndpoint : String
  apiKey : Option String
  cache : List (String × CacheEntry)
  accountTotalsImpl : Option Int → DataProviderResponse

/-- Body of CustomDataProviderExample.getAccountTotals as written in the
class: the example builds an empty accountTotals list (the fetch is left as
a commented template) and returns it wrapped in the response shape. -/
def exampleAccountTotals (_marker : Option Int) : DataProviderResponse :=
  { accountTotals := [] }

/-- Constructor of CustomDataProviderExample: stores the endpoint and the
optional API key, starts with an empty cache, and dispatches
getAccountTotals to the class body. -/
def CustomDataProviderExample.new (apiEndpoint : String) (apiKey : Option String) :
    CustomDataProviderExample :=
  { apiEndpoint := apiEndpoint
    apiKey := apiKey
    cache := []
    accountTotalsImpl := exampleAccountTotals }

namespace CustomDataProviderExample

/-- Method getAccountTotals(marker?): returns the (dynamically dispatched)
account snapshot for the marker; the receiver is not mutated. -/
def getAccountTotals (self : CustomDataProviderExample) (marker : Option Int) :
    DataProviderResponse × CustomDataProviderExample :=
  (self.accountTotalsImpl marker, self)

/-- The account lookup inside getAgentData:
response.accountTotals.find(account => account.model_id === agentId),
with the trailing agent-or-null coercion (find already yields null-like
none when nothing matches). -/
def findAgent (accounts : List AgentAccount) (agentId : String) : Option AgentAccount :=
  accounts.find? (fun account => account.model_id == agentId)

/-- Method getAgentData(agentId, marker?): fetches the snapshot for the
marker and returns the first account whose model_id equals agentId, or
none. -/
def getAgentData (self : CustomDataProviderExample) (agentId : String)
    (marker : Option Int) : Option AgentAccount × CustomDataProviderExample :=
  let r := self.getAccountTotals marker
  (findAgent r.1.accountTotals agentId, r.2)

/-- One step of filling the agent-id Set: JavaScript Set.add keeps insertion
order and ignores an element already present. -/
def addAgentId (agentIds : List String) (x : String) : List String :=
  if x ∈ agentIds then agentIds else agentIds ++ [x]

/-- The Set-based deduplication inside getAvailableAgents: iterate the
accounts in order, adding each model_id to the Set, then list the Set in
insertion order. -/
def collectAgentIds (accounts : List AgentAccount) : List String :=
  accounts.foldl (fun agentIds account => addAgentId agentIds account.model_id) []

/-- Method getAvailableAgents(): fetches the current snapshot (no marker)
and returns the distinct model_id values in first-occurrence order. -/
def getAvailableAgents (self : CustomDataProviderExample) :
    List String × CustomDataProviderExample :=
  let r := self.getAccountTotals none
  (collectAgentIds r.1.accountTotals, r.2)

/-- Method clearCache(): this.cache.clear(). -/
def clearCache (self : CustomDataProviderExample) : CustomDataProviderExample :=
  { self with cache := [] }

/-- Method getCacheStats(): size is the cache size and each cache entry
yields its URL and its age, the current time minus the entry's timestamp
with a missing timestamp treated as 0. Date.now() is ambient input in the
source and is passed here as the parameter now; the receiver is not
mutated. -/
def getCacheStats (self : CustomDataProviderExample) (now : Int) :
    CacheStats × CustomDataProviderExample :=
  ({ size := self.cache.length
     entries := self.cache.map (fun e => { url := e.1, age := now - (e.2.timestamp.getD 0) }) },
   self)

end CustomDataProviderExample

/-- The IDataProvider interface of src/src/services/data-provider.ts, over an
abstract provider-state type: the five operations, each embedded in
state-passing style. -/
structure IDataProvider (σ : Type) where
  getAccountTotals : σ → Option Int → DataProviderResponse × σ
  getAvailableAgents : σ → List String × σ
  getAgentData : σ → String → Option Int → Option AgentAccount × σ
  clearCache : σ → σ
  getCacheStats : σ → Int → CacheStats × σ

/-- CustomDataProviderExample implements IDataProvider: the method table
of the class. -/
def customProviderImpl : IDataProvider CustomDataProviderExample :=
  { getAccountTotals := CustomDataProviderExample.getAccountTotals
    getAvailableAgents := CustomDataProviderExample.getAvailableAgents
    getAgentData := CustomDataProviderExample.getAgentData
    clearCache := CustomDataProviderExample.clearCache
    getCacheStats := CustomDataProviderExample.getCacheStats }

/-- State of an ApiClient object: the injected data provider (its method
table and its current state). The constructor's default branch (building a
Nof1DataProvider when no provider is injected) concerns a class outside the
sources; the embedded client is the injected-provider case. -/
structure ApiClient (σ : Type) where
  provider : IDataProvider σ
  dataProvider : σ

namespace ApiClient

/-- ApiClient.getAccountTotals: delegates to the injected provider. -/
def getAccountTotals {σ : Type} (c : ApiClient σ) (marker : Option Int) :
    DataProviderResponse × ApiClient σ :=
  let r := c.provider.getAccountTotals c.dataProvider marker
  (r.1, { c with dataProvider := r.2 })

/-- ApiClient.getAvailableAgents: delegates to the injected provider. -/
def getAvailableAgents {σ : Type} (c : ApiClient σ) : List String × ApiClient σ :=
  let r := c.provider.getAvailableAgents c.dataProvider
  (r.1, { c with dataProvider := r.2 })

/-- ApiClient.getAgentData: delegates to the injected provider. -/
def getAgentData {σ : Type} (c : ApiClient σ) (agentId : String) (marker : Option Int) :
    Option AgentAccount × ApiClient σ :=
  let r := c.provider.getAgentData c.dataProvider agentId marker
  (r.1, { c with dataProvider := r.2 })

/-- ApiClient.clearCache: delegates to the injected provider. -/
def clearCache {σ : Type} (c : ApiClient σ) : ApiClient σ :=
  { c with dataProvider := c.provider.clearCache c.dataProvider }

/-- ApiClient.getCacheStats: delegates to the injected provider. -/
def getCacheStats {σ : Type} (c : ApiClient σ) (now : Int) : CacheStats × ApiClient σ :=
  let r := c.provider.getCacheStats c.dataProvider now
  (r.1, { c with dataProvider := r.2 })

end ApiClient

/-- Concrete exit plan, after the fixture of the test suite. -/
def sampleExitPlan : ExitPlan :=
  { profit_target := 52000, stop_loss := 48000,
    invalidation_condition := "price below 48000" }

/-- Concrete position, after the fixture of the test suite. -/
def samplePosition : Position :=
  { symbol := "BTC", entry_price := 50000, quantity := 1/10, leverage := 1,
    current_price := 51000, unrealized_pnl := 100, confidence := 4/5,
    entry_oid := 12345, tp_oid := 0, sl_oid := 0, margin := 5000,
    exit_plan := sampleExitPlan }

/-- Concrete account with a model_id different from the looked-up one. -/
def accountA : AgentAccount :=
  { id := "agent-1", model_id := "other-agent",
    since_inception_hourly_marker := 0, positions := [] }

/-- First concrete account carrying the looked-up model_id. -/
def accountB : AgentAccount :=
  { id := "agent-2", model_id := "target-agent",
    since_inception_hourly_marker := 0, positions := [("BTC", samplePosition)] }

/-- Second concrete account carrying the looked-up model_id (a duplicate). -/
def accountC : AgentAccount :=
  { id := "agent-3", model_id := "target-agent",
    since_inception_hourly_marker := 0, positions := [] }

/-- Concrete provider whose snapshot holds a duplicated model_id, as the
test suite's mock subclass injects its fixture accounts. -/
def sampleProvider : CustomDataProviderExample :=
  { apiEndpoint := "https://test-api.com"
    apiKey := some "test-api-key"
    cache := []
    accountTotalsImpl := fun _ => { accountTotals := [accountA, accountB, accountC] } }

namespace CustomDataProviderExample

/-- Membership in the Set after one add: the added element and the previous
members, whether or not the element was already present. -/
theorem mem_addAgentId (acc : List String) (m x : String) :
    x ∈ addAgentId acc m ↔ x ∈ acc ∨ x = m := by
  unfold addAgentId
  split
  · next h => exact ⟨Or.inl, fun hx => hx.elim id (fun e => e ▸ h)⟩
  · simp

/-- Membership after folding the accounts into the Set: a previous member,
or the model_id of one of the accounts. -/
theorem mem_foldl_addAgentId (l : List AgentAccount) (acc : List String) (x : String) :
    x ∈ l.foldl (fun agentIds account => addAgentId agentIds account.model_id) acc ↔
      x ∈ acc ∨ ∃ a ∈ l, a.model_id = x := by
  induction l generalizing acc with
  | nil => simp
  | cons a l ih =>
    rw [List.foldl_cons, ih, mem_addAgentId]
    constructor
    · rintro ((hx | rfl) | hl)
      · exact Or.inl hx
      · exact Or.inr ⟨a, List.mem_cons_self a l, rfl⟩
      · obtain ⟨b, hb, hbx⟩ := hl
        exact Or.inr ⟨b, List.mem_cons_of_mem a hb, hbx⟩
    · rintro (hx | ⟨b, hb, hbx⟩)
      · exact Or.inl (Or.inl hx)
      · rcases List.mem_cons.mp hb with rfl | hb
        · exact Or.inl (Or.inr hbx.symm)
        · exact Or.inr ⟨b, hb, hbx⟩

/-- Adding to the Set keeps it duplicate-free. -/
theorem nodup_addAgentId (acc : List String) (m : String) (h : acc.Nodup) :
    (addAgentId acc m).Nodup := by
  unfold addAgentId
  split
  · exact h
  · next hm => simp [List.nodup_append, h, hm]

/-- Folding the accounts into a duplicate-free Set keeps it duplicate-free. -/
theorem nodup_foldl_addAgentId (l : List AgentAccount) (acc : List String)
    (h : acc.Nodup) :
    (l.foldl (fun agentIds account => addAgentId agentIds account.model_id) acc).Nodup := by
  induction l generalizing acc with
  | nil => exact h
  | cons a l ih => exact ih _ (nodup_addAgentId _ _ h)

end CustomDataProviderExample

open CustomDataProviderExample in
/-- C1: for every agentId and optional marker, getAgentData returns an
account of the snapshot returned by getAccountTotals at that marker whose
model_id equals agentId, and returns none exactly when no account of that
snapshot has model_id equal to agentId. -/
theorem getAgentData_characterization (p : CustomDataProviderExample)
    (agentId : String) (marker : Option Int) :
    (∀ a, (p.getAgentData agentId marker).1 = some a →
      a ∈ (p.getAccountTotals marker).1.accountTotals ∧ a.model_id = agentId) ∧
    ((p.getAgentData agentId marker).1 = none ↔
      ∀ a ∈ (p.getAccountTotals marker).1.accountTotals, a.model_id ≠ agentId) := by
  constructor
  · intro a ha
    simp only [getAgentData, getAccountTotals, findAgent] at ha ⊢
    exact ⟨List.mem_of_find?_eq_some ha, by simpa using List.find?_some ha⟩
  · simp [getAgentData, getAccountTotals, findAgent, List.find?_eq_none]

/-- C2: ApiClient is a transparent adapter: each of its five operations
returns exactly what the injected provider's operation of the same name
returns on the same arguments, and its only effect is the provider's own
state change (the method table is untouched). -/
theorem apiClient_transparent {σ : Type} (I : IDataProvider σ) (s : σ)
    (agentId : String) (marker : Option Int) (now : Int) :
    (ApiClient.mk I s).getAccountTotals marker
        = ((I.getAccountTotals s marker).1, ApiClient.mk I (I.getAccountTotals s marker).2) ∧
    (ApiClient.mk I s).getAvailableAgents
        = ((I.getAvailableAgents s).1, ApiClient.mk I (I.getAvailableAgents s).2) ∧
    (ApiClient.mk I s).getAgentData agentId marker
        = ((I.getAgentData s agentId marker).1, ApiClient.mk I (I.getAgentData s agentId marker).2) ∧
    (ApiClient.mk I s).clearCache = ApiClient.mk I (I.clearCache s) ∧
    (ApiClient.mk I s).getCacheStats now
        = ((I.getCacheStats s now).1, ApiClient.mk I (I.getCacheStats s now).2) :=
  ⟨rfl, rfl, rfl, rfl, rfl⟩

open CustomDataProviderExample in
/-- C3: getAvailableAgents returns exactly the distinct model_id values of
the accounts returned by getAccountTotals with no marker: the list is
duplicate-free, and a string is in it exactly when it is the model_id of
some account of that snapshot. -/
theorem getAvailableAgents_distinct (p : CustomDataProviderExample) :
    (p.getAvailableAgents).1.Nodup ∧
    ∀ x, (x ∈ (p.getAvailableAgents).1 ↔
      ∃ a ∈ (p.getAccountTotals none).1.accountTotals, a.model_id = x) := by
  constructor
  · exact nodup_foldl_addAgentId _ _ List.nodup_nil
  · intro x
    simp [getAvailableAgents, getAccountTotals, collectAgentIds, mem_foldl_addAgentId]

/-- C4: for a fixed provider state and any arguments, getAccountTotals and
getAgentData leave the state (cache included) unchanged, and a second
consecutive call returns the same result as the first. -/
theorem provider_reads_idempotent (p : CustomDataProviderExample)
    (agentId : String) (marker : Option Int) :
    ((p.getAccountTotals marker).2 = p ∧
      ((p.getAccountTotals marker).2.getAccountTotals marker).1
        = (p.getAccountTotals marker).1) ∧
    ((p.getAgentData agentId marker).2 = p ∧
      ((p.getAgentData agentId marker).2.getAgentData agentId marker).1
        = (p.getAgentData agentId marker).1) :=
  ⟨⟨rfl, rfl⟩, rfl, rfl⟩

/-- C5: immediately after clearCache, getCacheStats reports size 0 and no
entries, and a second clearCache does not change the state further. -/
theorem clearCache_invalidates (p : CustomDataProviderExample) (now : Int) :
    (p.clearCache.getCacheStats now).1.size = 0 ∧
    (p.clearCache.getCacheStats now).1.entries = [] ∧
    p.clearCache.clearCache = p.clearCache :=
  ⟨rfl, rfl, rfl⟩

open CustomDataProviderExample in
/-- C6: the marker is forwarded unchanged: getAgentData selects its account
from the snapshot getAccountTotals returns at that same marker, while
getAvailableAgents derives its list from the snapshot at no marker. -/
theorem marker_forwarded (p : CustomDataProviderExample) (agentId : String)
    (marker : Option Int) :
    (p.getAgentData agentId marker).1
      = findAgent (p.getAccountTotals marker).1.accountTotals agentId ∧
    (p.getAvailableAgents).1
      = collectAgentIds (p.getAccountTotals none).1.accountTotals :=
  ⟨rfl, rfl⟩

/-- C7: snapshots are immutable values replaced wholesale: getAccountTotals
returns the whole snapshot value determined by the dispatched snapshot
function, no operation of the provider alters that function (so the
accounts and positions an earlier call returned are never changed by a
later operation), and the snapshot returned after a cache clear is the
same value as before. -/
theorem snapshot_immutable (p : CustomDataProviderExample) (agentId : String)
    (marker m2 : Option Int) (now : Int) :
    (p.getAccountTotals marker).1 = p.accountTotalsImpl marker ∧
    ((p.getAccountTotals marker).2.accountTotalsImpl = p.accountTotalsImpl ∧
      (p.getAgentData agentId marker).2.accountTotalsImpl = p.accountTotalsImpl ∧
      (p.getAvailableAgents).2.accountTotalsImpl = p.accountTotalsImpl ∧
      p.clearCache.accountTotalsImpl = p.accountTotalsImpl ∧
      (p.getCacheStats now).2.accountTotalsImpl = p.accountTotalsImpl) ∧
    (p.clearCache.getAccountTotals m2).1 = (p.getAccountTotals m2).1 :=
  ⟨rfl, ⟨rfl, rfl, rfl, rfl, rfl⟩, rfl⟩

/-- C8: getCacheStats reports a size equal to the number of cached entries,
an entries array of that same length, one row per cached URL in cache
order, each row's age being now minus the entry's stored timestamp with a
missing timestamp treated as 0. -/
theorem getCacheStats_shape (p : CustomDataProviderExample) (now : Int) :
    (p.getCacheStats now).1.size = p.cache.length ∧
    (p.getCacheStats now).1.entries.length = p.cache.length ∧
    (p.getCacheStats now).1.entries
      = p.cache.map (fun e => { url := e.1, age := now - (e.2.timestamp.getD 0) }) := by
  refine ⟨rfl, ?_, rfl⟩
  simp [CustomDataProviderExample.getCacheStats]

/-- C9: the read operations are pure with respect to the provider state:
getAccountTotals, getAvailableAgents, getAgentData and getCacheStats return
the receiver unchanged, so clearCache (which empties the cache) is the only
interface operation that mutates it. -/
theorem reads_preserve_state (p : CustomDataProviderExample) (agentId : String)
    (marker : Option Int) (now : Int) :
    (p.getAccountTotals marker).2 = p ∧
    (p.getAvailableAgents).2 = p ∧
    (p.getAgentData agentId marker).2 = p ∧
    (p.getCacheStats now).2 = p ∧
    p.clearCache.cache = [] :=
  ⟨rfl, rfl, rfl, rfl, rfl⟩

/-- C10: when several accounts of the snapshot share the requested
model_id, getAgentData returns the first one in accountTotals order: if the
snapshot splits as pre ++ a :: post with a matching and nothing in pre
matching, the result is a. -/
theorem getAgentData_first_match (p : CustomDataProviderExample)
    (agentId : String) (marker : Option Int)
    (pre post : List AgentAccount) (a : AgentAccount)
    (hsnap : (p.getAccountTotals marker).1.accountTotals = pre ++ a :: post)
    (ha : a.model_id = agentId)
    (hpre : ∀ b ∈ pre, b.model_id ≠ agentId) :
    (p.getAgentData agentId marker).1 = some a := by
  simp only [CustomDataProviderExample.getAgentData,
    CustomDataProviderExample.getAccountTotals, CustomDataProviderExample.findAgent] at hsnap ⊢
  rw [hsnap, List.find?_append]
  have hnone : pre.find? (fun account => account.model_id == agentId) = none := by
    rw [List.find?_eq_none]
    intro b hb
    simpa using hpre b hb
  rw [hnone, List.find?_cons_of_pos _ (by simpa using ha)]
  rfl

/-- C10 witness: on the concrete provider whose snapshot lists accountA,
then accountB and accountC both carrying the target model_id, getAgentData
returns accountB, the first match. -/
theorem getAgentData_first_match_witness :
    (sampleProvider.getAgentData "target-agent" none).1 = some accountB :=
  getAgentData_first_match sampleProvider "target-agent" none
    [accountA] [accountC] accountB rfl rfl (by decide)

end Nof1
